import Mathlib

/-!
Shallow embedding of `modoboa_installer/scripts/modoboa.py` (the `Modoboa`
installer class): extension/version compatibility resolution (`_setup_venv`),
the deploy-or-redeploy confirmation protocol (`_deploy_instance`), settings
injection (`apply_settings`), the amavis sanity check (`__init__`), the amavis
database grant (`setup_database`) and the `post_run` sequencing.

Collaborator modules (`utils`, `compatibility_matrix`, `python`, `base`) are
not part of the analysed sources; where their behaviour decides a property
they are modelled from the specification and marked as such.  External
effects (filesystem, subprocess, database, operator input) are passed in as
explicit parameters or recorded as actions.
-/

namespace Modoboa

/-- Association maps such as `compatibility_matrix.EXTENSIONS_AVAILABILITY`
(extension name to minimum version) and the per-version constraint tables:
plain string-keyed dictionaries, looked up with `List.lookup`. -/
abbrev ConstraintMap := List (String × String)

/-- The table `compatibility_matrix.COMPATIBILITY_MATRIX`: application
version to per-extension constraint map.  Modelled from the spec: a plain
static mapping ("pure data, no behavior"), so a lookup of an absent key
yields nothing — in Python, subscripting such a dict raises `KeyError`. -/
abbrev CompatMatrix := List (String × ConstraintMap)

/-- Digits of one dotted-version segment read as a decimal number. -/
def segToNat (seg : List Char) : Nat :=
  seg.foldl (fun acc c => acc * 10 + (c.toNat - 48)) 0

/-- Split a character list at the dots, keeping segment order. -/
def splitVersion : List Char → List (List Char)
  | [] => [[]]
  | c :: rest =>
    let r := splitVersion rest
    if c = '.' then [] :: r
    else
      match r with
      | [] => [[c]]
      | seg :: segs => (c :: seg) :: segs

/-- Modelled from the spec: `utils.convert_version_to_int` (the Version
Comparator, spec 4.1) is not among the analysed sources.  The spec requires a
dotted numeric string to map to an integer key, e.g. by zero-padding each
segment to a fixed width and concatenating; realised here with width 3
(weight 1000 per segment). -/
def convert_version_to_int (v : String) : Nat :=
  (splitVersion v.data).foldl (fun acc seg => acc * 1000 + segToNat seg) 0

/-- Embedding of `Modoboa.is_extension_ok_for_version`: an extension absent
from `EXTENSIONS_AVAILABILITY` is always ok; otherwise the requested version
must be at least the recorded minimum version under the comparator. -/
def is_extension_ok_for_version (avail : ConstraintMap)
    (extension version : String) : Bool :=
  match avail.lookup extension with
  | none => true
  | some minVersion =>
    decide (convert_version_to_int version ≥ convert_version_to_int minVersion)

/-- Embedding of the two `str.replace` calls of `_setup_venv`: every `<`
becomes `\<` and every `>` becomes `\>`.  The two patterns are single
characters and the first replacement introduces no `>`, so the sequential
replaces equal this one character-wise pass. -/
def escape_constraint (c : String) : String :=
  String.mk (c.data.foldr
    (fun ch acc =>
      if ch = '<' then '\\' :: '<' :: acc
      else if ch = '>' then '\\' :: '>' :: acc
      else ch :: acc) [])

/-- Embedding of the extension loop of `_setup_venv` (non-"latest" branch).
The Python loop iterates over a copy of `self.extensions`, removes every
extension failing the version check from the original list and appends a
package spec for each surviving one; since removal always targets an
occurrence of the currently inspected value, the surviving list is exactly
the ordered sub-list of version-compatible extensions.  Returns
(appended package specs, surviving extensions). -/
def venv_loop (matrix avail : ConstraintMap) (version : String) :
    List String → List String × List String
  | [] => ([], [])
  | ext :: rest =>
    if is_extension_ok_for_version avail ext version then
      let pkg :=
        match matrix.lookup ext with
        | some c => ext ++ escape_constraint c
        | none => ext
      let r := venv_loop matrix avail version rest
      (pkg :: r.1, ext :: r.2)
    else
      venv_loop matrix avail version rest

/-- Configuration slice read by `_setup_venv`: the requested version, the
database engine, the requested extensions and whether the interpreter is in
the legacy range needing the TLS fix (`sys.version_info` check). -/
structure VenvConfig where
  version : String
  dbengine : String
  extensions : List String
  legacySsl : Bool
  deriving Repr, DecidableEq

/-- The database-driver package chosen by `_setup_venv` from the configured
engine: `psycopg2` for postgres, `MYSQL-Python` for anything else. -/
def dbDriver (engine : String) : String :=
  if engine = "postgres" then "psycopg2" else "MYSQL-Python"

/-- A pip package spec with no version pin and no constraint suffix: it
contains none of the characters `=`, `<`, `>`. -/
def isBareName (s : String) : Bool :=
  s.data.all (fun c => !(c == '=' || c == '<' || c == '>'))

/-- Tail of `_setup_venv`'s package list: the database driver chosen by the
engine, then the TLS-fix package on legacy interpreters. -/
def finishPackages (core : List String) (cfg : VenvConfig) : List String :=
  core ++ [dbDriver cfg.dbengine] ++
    (if cfg.legacySsl then ["pyOpenSSL"] else [])

/-- Embedding of `Modoboa._setup_venv`: produces the package list handed to
`python.install_packages` and the updated `self.extensions`.  For a version
other than "latest", the constraint table is read with a plain subscript, so
an absent version fails (Python `KeyError`), modelled as `Except.error`. -/
def setup_venv (cm : CompatMatrix) (avail : ConstraintMap) (cfg : VenvConfig) :
    Except String (List String × List String) :=
  if cfg.version = "latest" then
    Except.ok (finishPackages (["rrdtool", "modoboa"] ++ cfg.extensions) cfg,
      cfg.extensions)
  else
    match cm.lookup cfg.version with
    | none => Except.error ("KeyError: " ++ cfg.version)
    | some matrix =>
      let r := venv_loop matrix avail cfg.version cfg.extensions
      Except.ok (finishPackages (["rrdtool", "modoboa==" ++ cfg.version] ++ r.1) cfg,
        r.2)

/-- Embedding of `answer.lower().startswith("n")` in `_deploy_instance`:
the answer is lowercased character-wise and its first character compared to
'n' (an empty answer does not start with "n"). -/
def answer_is_negative (answer : String) : Bool :=
  (answer.data.map Char.toLower).head? == some 'n'

/-- Embedding of the amavis sanity check in `Modoboa.__init__`: the flag
starts false; if "modoboa-amavis" was requested it is turned on when the
amavis service is enabled in configuration, otherwise the extension is
removed (first occurrence, as Python `list.remove`).  Returns
(amavis_enabled, updated extension list). -/
def initAmavis (extensions : List String) (amavisCfgEnabled : Bool) :
    Bool × List String :=
  if extensions.contains "modoboa-amavis" then
    if amavisCfgEnabled then (true, extensions)
    else (false, extensions.erase "modoboa-amavis")
  else (false, extensions)

/-- Configuration and installer state read by `_deploy_instance`:
values of `self.config`, the db credentials from the base installer, the
(possibly filtered) extension list and the amavis flag from `__init__`. -/
structure InstCfg where
  timezone : String
  hostname : String
  engine : String
  dbuser : String
  dbpasswd : String
  dbhost : String
  dbname : String
  amavisDbuser : String
  amavisDbpassword : String
  amavisDbname : String
  extensions : List String
  devmode : Bool
  amavisEnabled : Bool
  deriving Repr, DecidableEq

/-- Python `" ".join`. -/
def joinSpace : List String → String
  | [] => ""
  | [x] => x
  | x :: y :: rest => x ++ " " ++ joinSpace (y :: rest)

/-- The quoted default-backend database URL argument of `_deploy_instance`. -/
def dburl (c : InstCfg) : String :=
  "'default:" ++ c.engine ++ "://" ++ c.dbuser ++ ":" ++ c.dbpasswd ++ "@" ++
    c.dbhost ++ "/" ++ c.dbname ++ "'"

/-- The quoted secondary amavis database URL argument of `_deploy_instance`. -/
def amavis_dburl (c : InstCfg) : String :=
  "'amavis:" ++ c.engine ++ "://" ++ c.amavisDbuser ++ ":" ++
    c.amavisDbpassword ++ "@" ++ c.dbhost ++ "/" ++ c.amavisDbname ++ "'"

/-- Argument list of `_deploy_instance` before the amavis special case:
the base list, with "--devel" put in front in dev mode. -/
def deploy_args_base (c : InstCfg) : List String :=
  let args := ["--collectstatic",
    "--timezone", c.timezone,
    "--domain", c.hostname,
    "--extensions", joinSpace c.extensions,
    "--dont-install-extensions",
    dburl c]
  if c.devmode then "--devel" :: args else args

/-- Full argument list of `_deploy_instance`: the amavis URL is appended
exactly when `self.amavis_enabled` holds. -/
def deploy_args (c : InstCfg) : List String :=
  deploy_args_base c ++ (if c.amavisEnabled then [amavis_dburl c] else [])

/-- Observable steps of `_deploy_instance`: the confirmation prompt
(`utils.printcolor` + `utils.user_input`), the recursive removal
(`shutil.rmtree`) of the target, and the invocation of the external
`modoboa-admin.py deploy instance` tool with its arguments. -/
inductive DeployAction where
  | prompt
  | rmtree
  | deploy (args : List String)
  deriving Repr, DecidableEq

/-- Embedding of `Modoboa._deploy_instance`.  `tgtExists` models
`os.path.exists(target)`, `force` the `general.force` flag, `answer` the
operator's reply, `deployCode` the exit code of the external tool.  Returns
the performed actions and whether a `FatalError` was raised (non-zero exit
of the tool). -/
def deploy_instance (tgtExists force : Bool) (answer : String) (c : InstCfg)
    (deployCode : Nat) : List DeployAction × Bool :=
  if tgtExists then
    if !force then
      if answer_is_negative answer then
        ([DeployAction.prompt], false)
      else
        ([DeployAction.prompt, DeployAction.rmtree,
          DeployAction.deploy (deploy_args c)], deployCode != 0)
    else
      ([DeployAction.rmtree, DeployAction.deploy (deploy_args c)],
        deployCode != 0)
  else
    ([DeployAction.deploy (deploy_args c)], deployCode != 0)

/-- Candidate mail-log locations probed by `apply_settings`, in source
order. -/
def logCandidates : List String := ["/var/log/maillog", "/var/log/mail.log"]

/-- Embedding of the logfile loop of `apply_settings`: for each candidate
path, if it exists the key is (re)assigned to it; the loop has no early
exit, so a later existing candidate overwrites an earlier one, and the key
stays absent when no candidate exists. -/
def chooseLogfile (fsExists : String → Bool) : Option String :=
  logCandidates.foldl (fun acc p => if fsExists p then some p else acc) none

/-- The settings document assembled by `apply_settings` (nested dict before
`json.dumps`): fixed admin flags, the freshly generated secret key, the
fixed amavis pdp mode, the two storage paths and the optional mail-log
path. -/
structure SettingsDoc where
  handle_mailboxes : Bool
  account_auto_removal : Bool
  secret_key : String
  am_pdp_mode : String
  rrd_rootdir : String
  storage_dir : String
  logfile : Option String
  deriving Repr, DecidableEq

/-- Embedding of the document literal of `apply_settings`, with `freshKey`
the value returned by `utils.random_key()` on this call (modelled from the
spec: `utils.random_key` is not among the analysed sources; the spec only
requires a freshly generated random key per call, so the generated value is
passed in). -/
def build_settings (freshKey rrdRootDir pdfStorageDir : String)
    (fsExists : String → Bool) : SettingsDoc :=
  { handle_mailboxes := true
    account_auto_removal := true
    secret_key := freshKey
    am_pdp_mode := "inet"
    rrd_rootdir := rrdRootDir
    storage_dir := pdfStorageDir
    logfile := chooseLogfile fsExists }

/-- JSON rendering of a string (inputs assumed free of characters needing
escapes, as in the source's paths and generated keys). -/
def jsonStr (s : String) : String := "\"" ++ s ++ "\""

/-- JSON rendering of a boolean. -/
def jsonBool (b : Bool) : String := if b then "true" else "false"

/-- Embedding of `json.dumps(settings)` for the document of
`apply_settings`, keys in Python insertion order ("logfile" is inserted
after "rrd_rootdir" when present). -/
def serialize_settings (doc : SettingsDoc) : String :=
  "\x7b\"admin\": \x7b\"handle_mailboxes\": " ++ jsonBool doc.handle_mailboxes ++
  ", \"account_auto_removal\": " ++ jsonBool doc.account_auto_removal ++
  "\x7d, \"core\": \x7b\"secret_key\": " ++ jsonStr doc.secret_key ++
  "\x7d, \"modoboa_amavis\": \x7b\"am_pdp_mode\": " ++ jsonStr doc.am_pdp_mode ++
  "\x7d, \"modoboa_stats\": \x7b\"rrd_rootdir\": " ++ jsonStr doc.rrd_rootdir ++
  (match doc.logfile with
   | some p => ", \"logfile\": " ++ jsonStr p
   | none => "") ++
  "\x7d, \"modoboa_pdfcredentials\": \x7b\"storage_dir\": " ++
  jsonStr doc.storage_dir ++ "\x7d\x7d"

/-- Embedding of the database effect of `apply_settings`: the executed
query is `UPDATE core_localconfig SET _parameters='...'`, so the previous
content of the `_parameters` column (`oldParams`) is replaced wholesale by
the serialization of the newly built document. -/
def apply_settings (freshKey rrdRootDir pdfStorageDir : String)
    (fsExists : String → Bool) (oldParams : String) : String :=
  let _ := oldParams
  serialize_settings (build_settings freshKey rrdRootDir pdfStorageDir fsExists)

/-- Embedding of the amavis part of `Modoboa.setup_database`: after the
base-class work, `grant_access(amavis dbname, dbuser)` runs exactly when
`self.amavis_enabled` holds.  Returns the performed grant calls. -/
def setup_database_amavis_grants (amavisEnabled : Bool)
    (amavisDbname dbuser : String) : List (String × String) :=
  if amavisEnabled then [(amavisDbname, dbuser)] else []

/-- Observable steps of `Modoboa.post_run`: the venv setup (recording the
package list handed to `python.install_packages`), the deployment steps, and
the settings injection. -/
inductive PostRunAction where
  | setupVenvStep (pkgs : List String)
  | deployStep (a : DeployAction)
  | applySettingsStep
  deriving Repr, DecidableEq

/-- Embedding of `Modoboa.post_run`: `_setup_venv`, then `_deploy_instance`
(on the extension list as filtered by `_setup_venv`), then `apply_settings`.
A `KeyError` in `_setup_venv` or a `FatalError` in `_deploy_instance`
propagates and aborts the remaining steps; an early return of
`_deploy_instance` does not.  Returns the performed steps and whether an
exception aborted the run. -/
def post_run (cm : CompatMatrix) (avail : ConstraintMap) (vc : VenvConfig)
    (tgtExists force : Bool) (answer : String) (c : InstCfg)
    (deployCode : Nat) : List PostRunAction × Bool :=
  match setup_venv cm avail vc with
  | Except.error _ => ([], true)
  | Except.ok r =>
    let d := deploy_instance tgtExists force answer
      { c with extensions := r.2 } deployCode
    let acts := PostRunAction.setupVenvStep r.1 ::
      d.1.map PostRunAction.deployStep
    if d.2 then (acts, true)
    else (acts ++ [PostRunAction.applySettingsStep], false)

/-! ### Shared lemmas -/

/-- The surviving extension list of the `_setup_venv` loop is the ordered
sub-list of version-compatible extensions. -/
theorem venv_loop_snd (matrix avail : ConstraintMap) (version : String)
    (l : List String) :
    (venv_loop matrix avail version l).2 =
      l.filter (fun e => is_extension_ok_for_version avail e version) := by
  induction l with
  | nil => rfl
  | cons e rest ih =>
    by_cases h : is_extension_ok_for_version avail e version = true <;>
      simp [venv_loop, h, ih]

/-- A version-compatible extension contributes its package spec to the
package appends of the `_setup_venv` loop. -/
theorem venv_loop_mem_fst (matrix avail : ConstraintMap) (version ext : String)
    (l : List String) (hmem : ext ∈ l)
    (hok : is_extension_ok_for_version avail ext version = true) :
    (match matrix.lookup ext with
     | some c => ext ++ escape_constraint c
     | none => ext) ∈ (venv_loop matrix avail version l).1 := by
  induction l with
  | nil => cases hmem
  | cons e rest ih =>
    rcases List.mem_cons.mp hmem with he | hr
    · subst he
      cases hc : matrix.lookup ext <;> simp [venv_loop, hok, hc]
    · by_cases h : is_extension_ok_for_version avail e version = true <;>
        simp [venv_loop, h, ih hr]

/-- Whether `_setup_venv` succeeds does not depend on the database engine. -/
theorem setup_venv_isOk_engine (cm : CompatMatrix) (avail : ConstraintMap)
    (cfg : VenvConfig) (engine : String) :
    (setup_venv cm avail { cfg with dbengine := engine }).isOk =
      (setup_venv cm avail cfg).isOk := by
  unfold setup_venv
  by_cases hv : cfg.version = "latest"
  · simp only [hv, if_pos]
    rfl
  · simp only [hv]
    cases cm.lookup cfg.version <;> rfl

/-- The driver chosen from any engine is never pinned or constrained. -/
theorem dbDriver_bare (engine : String) : isBareName (dbDriver engine) = true := by
  unfold dbDriver
  by_cases h : engine = "postgres" <;> simp [h] <;> decide

/-! ### Claim C2 -/

/-- C2, counterexample: with a compatibility matrix that has no entry for
the requested version "9.9", resolution does not proceed with bare
extension names — it fails with a `KeyError`, refuting the claim that a
missing entry is treated as an empty constraint set. -/
theorem c2_counterexample_missing_version_fails :
    setup_venv [] [] ⟨"9.9", "postgres", ["modoboa-webmail"], false⟩ =
      Except.error "KeyError: 9.9" ∧
    (setup_venv [] [] ⟨"9.9", "postgres", ["modoboa-webmail"], false⟩).isOk
      = false := ⟨rfl, rfl⟩

/-- C2, amended: for every requested version other than "latest" that has
no entry in the compatibility matrix, resolution fails with a `KeyError`
lookup error on that version; it does not proceed. -/
theorem c2_missing_matrix_version_raises_keyerror
    (cm : CompatMatrix) (avail : ConstraintMap) (cfg : VenvConfig)
    (hv : cfg.version ≠ "latest") (hm : cm.lookup cfg.version = none) :
    setup_venv cm avail cfg = Except.error ("KeyError: " ++ cfg.version) := by
  unfold setup_venv
  simp [hv, hm]

/-- C2, witness: the amended theorem applied at the concrete matrix without
an entry for version "9.9". -/
theorem c2_missing_matrix_version_raises_keyerror_witness :
    setup_venv [("1.8.1", [])] [] ⟨"9.9", "mysql", ["modoboa-stats"], true⟩ =
      Except.error ("KeyError: " ++ "9.9") :=
  c2_missing_matrix_version_raises_keyerror
    [("1.8.1", [])] [] ⟨"9.9", "mysql", ["modoboa-stats"], true⟩
    (by decide) (by rfl)

/-! ### Claim C3 -/

/-- C3, counterexample: with the unsupported engine "sqlite", resolution
does not fail with an `UnknownDatabaseEngine` error — it succeeds and
appends the `MYSQL-Python` driver, refuting the claim. -/
theorem c3_counterexample_unknown_engine_no_error :
    setup_venv [] [] ⟨"latest", "sqlite", [], false⟩ =
      Except.ok (["rrdtool", "modoboa", "MYSQL-Python"], []) := rfl

/-- C3, amended: resolution never fails because of the database engine (for
every engine value, success is unchanged); whenever it succeeds, exactly one
driver package is appended after the core packages — `psycopg2` precisely
when the engine is "postgres" and `MYSQL-Python` for every other value,
including unsupported ones.  No `UnknownDatabaseEngine` error exists. -/
theorem c3_one_driver_appended_engine_never_fails
    (cm : CompatMatrix) (avail : ConstraintMap) (cfg : VenvConfig)
    (pkgs kept : List String)
    (h : setup_venv cm avail cfg = Except.ok (pkgs, kept)) :
    (∃ core, pkgs = core ++ [dbDriver cfg.dbengine] ++
      (if cfg.legacySsl then ["pyOpenSSL"] else [])) ∧
    (dbDriver cfg.dbengine = "psycopg2" ↔ cfg.dbengine = "postgres") ∧
    (dbDriver cfg.dbengine = "psycopg2" ∨
      dbDriver cfg.dbengine = "MYSQL-Python") ∧
    (∀ engine : String,
      (setup_venv cm avail { cfg with dbengine := engine }).isOk = true) := by
  refine ⟨?_, ?_, ?_, ?_⟩
  · unfold setup_venv at h
    by_cases hv : cfg.version = "latest"
    · simp only [hv, if_pos] at h
      injection h with h
      exact ⟨_, congrArg Prod.fst h.symm⟩
    · simp only [hv] at h
      cases hm : cm.lookup cfg.version <;> rw [hm] at h
      · exact absurd h (by simp)
      · injection h with h
        exact ⟨_, congrArg Prod.fst h.symm⟩
  · unfold dbDriver
    by_cases he : cfg.dbengine = "postgres" <;> simp [he]
  · unfold dbDriver
    by_cases he : cfg.dbengine = "postgres" <;> simp [he]
  · intro engine
    rw [setup_venv_isOk_engine, h]
    rfl

/-- C3, witness: the amended theorem applied to a successful concrete
resolution with the "mysql" engine. -/
theorem c3_one_driver_appended_engine_never_fails_witness :
    (∃ core, ["rrdtool", "modoboa", "MYSQL-Python"] =
      core ++ [dbDriver "mysql"] ++
      (if (false : Bool) then ["pyOpenSSL"] else [])) ∧
    (dbDriver "mysql" = "psycopg2" ↔ "mysql" = "postgres") ∧
    (dbDriver "mysql" = "psycopg2" ∨ dbDriver "mysql" = "MYSQL-Python") ∧
    (∀ engine : String,
      (setup_venv [] []
        { (⟨"latest", "mysql", [], false⟩ : VenvConfig) with
          dbengine := engine }).isOk = true) :=
  c3_one_driver_appended_engine_never_fails [] []
    ⟨"latest", "mysql", [], false⟩ ["rrdtool", "modoboa", "MYSQL-Python"] []
    (by rfl)

/-! ### Claim C4 -/

/-- C4, counterexample: when both candidate paths exist, the mail-log key
is set to "/var/log/mail.log", the second candidate — not the first
("/var/log/maillog") as the claim states. -/
theorem c4_counterexample_both_exist_second_wins :
    (build_settings "key" "rrd" "pdf"
      (fun p => p == "/var/log/maillog" || p == "/var/log/mail.log")).logfile
      = some "/var/log/mail.log" ∧
    ((build_settings "key" "rrd" "pdf"
      (fun p => p == "/var/log/maillog" || p == "/var/log/mail.log")).logfile
      ≠ some "/var/log/maillog") := by
  constructor
  · rfl
  · decide

/-- C4, amended: the mail-log key is set to the last of the two candidate
paths (/var/log/maillog, then /var/log/mail.log) that exists on the
filesystem — when both exist, /var/log/mail.log is chosen — and the key is
omitted entirely when neither exists. -/
theorem c4_logfile_last_existing_candidate
    (freshKey rrdRootDir pdfStorageDir : String) (fsExists : String → Bool) :
    (build_settings freshKey rrdRootDir pdfStorageDir fsExists).logfile =
      (if fsExists "/var/log/mail.log" then some "/var/log/mail.log"
       else if fsExists "/var/log/maillog" then some "/var/log/maillog"
       else none) := by
  unfold build_settings chooseLogfile logCandidates
  by_cases h1 : fsExists "/var/log/maillog" <;>
    by_cases h2 : fsExists "/var/log/mail.log" <;> simp [h1, h2]

/-! ### Claim C5 -/

/-- C5: for every requested version other than "latest" (with an entry in
the compatibility matrix, so that resolution reaches the extension loop),
an extension whose recorded minimum version exceeds the requested version
under the comparator never appears in the surviving extension list,
whatever the matrix says about it, and the run still succeeds — it is not
aborted by the incompatible extension. -/
theorem c5_incompatible_extension_silently_dropped
    (cm : CompatMatrix) (avail : ConstraintMap) (cfg : VenvConfig)
    (matrix : ConstraintMap) (ext minVersion : String)
    (hv : cfg.version ≠ "latest")
    (hm : cm.lookup cfg.version = some matrix)
    (ha : avail.lookup ext = some minVersion)
    (hlt : convert_version_to_int cfg.version <
      convert_version_to_int minVersion) :
    ∃ pkgs kept, setup_venv cm avail cfg = Except.ok (pkgs, kept) ∧
      ext ∉ kept := by
  have hok : is_extension_ok_for_version avail ext cfg.version = false := by
    unfold is_extension_ok_for_version
    rw [ha]
    exact decide_eq_false (not_le.mpr hlt)
  refine ⟨finishPackages (["rrdtool", "modoboa==" ++ cfg.version] ++
      (venv_loop matrix avail cfg.version cfg.extensions).1) cfg,
    (venv_loop matrix avail cfg.version cfg.extensions).2, ?_, ?_⟩
  · unfold setup_venv
    rw [if_neg hv, hm]
  · rw [venv_loop_snd]
    intro hmem
    rw [List.mem_filter, hok] at hmem
    exact absurd hmem.2 (by simp)

/-- C5, witness: version "1.0.5" with the extension "modoboa-amavis" whose
minimum version is "1.1.0"; the extension is dropped and resolution
succeeds. -/
theorem c5_incompatible_extension_silently_dropped_witness :
    ∃ pkgs kept,
      setup_venv [("1.0.5", [])] [("modoboa-amavis", "1.1.0")]
        ⟨"1.0.5", "postgres", ["modoboa-amavis", "modoboa-webmail"], false⟩ =
        Except.ok (pkgs, kept) ∧
      "modoboa-amavis" ∉ kept :=
  c5_incompatible_extension_silently_dropped
    [("1.0.5", [])] [("modoboa-amavis", "1.1.0")]
    ⟨"1.0.5", "postgres", ["modoboa-amavis", "modoboa-webmail"], false⟩
    [] "modoboa-amavis" "1.1.0" (by decide) (by rfl) (by rfl) (by decide)

/-! ### Claim C6 -/

/-- C6: for a version other than "latest" (present in the matrix) and a
surviving (version-compatible) requested extension, the appended package
spec is the extension name concatenated with the matrix constraint with
every `<` escaped to `\<` and every `>` escaped to `\>` when a constraint
exists, and the bare extension name otherwise. -/
theorem c6_surviving_extension_spec_escaped_or_bare
    (cm : CompatMatrix) (avail : ConstraintMap) (cfg : VenvConfig)
    (matrix : ConstraintMap) (ext : String)
    (hv : cfg.version ≠ "latest")
    (hm : cm.lookup cfg.version = some matrix)
    (hmem : ext ∈ cfg.extensions)
    (hok : is_extension_ok_for_version avail ext cfg.version = true) :
    ∃ pkgs kept, setup_venv cm avail cfg = Except.ok (pkgs, kept) ∧
      (∀ c, matrix.lookup ext = some c →
        ext ++ escape_constraint c ∈ pkgs) ∧
      (matrix.lookup ext = none → ext ∈ pkgs) := by
  refine ⟨finishPackages (["rrdtool", "modoboa==" ++ cfg.version] ++
      (venv_loop matrix avail cfg.version cfg.extensions).1) cfg,
    (venv_loop matrix avail cfg.version cfg.extensions).2, ?_, ?_, ?_⟩
  · unfold setup_venv
    rw [if_neg hv, hm]
  · intro c hc
    have h := venv_loop_mem_fst matrix avail cfg.version ext
      cfg.extensions hmem hok
    rw [hc] at h
    unfold finishPackages
    simp only [List.mem_append]
    exact Or.inl (Or.inl (Or.inr h))
  · intro hc
    have h := venv_loop_mem_fst matrix avail cfg.version ext
      cfg.extensions hmem hok
    rw [hc] at h
    unfold finishPackages
    simp only [List.mem_append]
    exact Or.inl (Or.inl (Or.inr h))

/-- C6, witness: version "1.9.0" whose matrix constrains "modoboa-webmail"
to "<2.0" and leaves "modoboa-stats" unconstrained; the escaped spec
"modoboa-webmail\<2.0" and the bare name "modoboa-stats" are both
appended. -/
theorem c6_surviving_extension_spec_escaped_or_bare_witness :
    (∃ pkgs kept,
      setup_venv [("1.9.0", [("modoboa-webmail", "<2.0")])] []
        ⟨"1.9.0", "postgres", ["modoboa-webmail", "modoboa-stats"], false⟩ =
        Except.ok (pkgs, kept) ∧
      (∀ c, ([("modoboa-webmail", "<2.0")] : ConstraintMap).lookup
          "modoboa-webmail" = some c →
        "modoboa-webmail" ++ escape_constraint c ∈ pkgs) ∧
      (([("modoboa-webmail", "<2.0")] : ConstraintMap).lookup
          "modoboa-webmail" = none → "modoboa-webmail" ∈ pkgs)) :=
  c6_surviving_extension_spec_escaped_or_bare
    [("1.9.0", [("modoboa-webmail", "<2.0")])] []
    ⟨"1.9.0", "postgres", ["modoboa-webmail", "modoboa-stats"], false⟩
    [("modoboa-webmail", "<2.0")] "modoboa-webmail"
    (by decide) (by rfl) (by decide) (by rfl)

/-! ### Claim C7 -/

/-- C7: when the requested version is "latest", every requested extension
is kept, and — provided the requested extension names themselves are bare
names — every produced package spec (core package, extensions, driver,
TLS shim) is a bare name with no `==` pin and no `<`/`>` constraint. -/
theorem c7_latest_keeps_all_no_pins
    (cm : CompatMatrix) (avail : ConstraintMap) (cfg : VenvConfig)
    (hv : cfg.version = "latest")
    (hb : ∀ e ∈ cfg.extensions, isBareName e = true) :
    ∃ pkgs, setup_venv cm avail cfg = Except.ok (pkgs, cfg.extensions) ∧
      ∀ p ∈ pkgs, isBareName p = true := by
  refine ⟨finishPackages (["rrdtool", "modoboa"] ++ cfg.extensions) cfg,
    ?_, ?_⟩
  · unfold setup_venv
    rw [if_pos hv]
  · intro p hp
    unfold finishPackages at hp
    rcases List.mem_append.mp hp with hp | hp
    · rcases List.mem_append.mp hp with hp | hp
      · rcases List.mem_append.mp hp with hp | hp
        · simp only [List.mem_cons, List.not_mem_nil, or_false] at hp
          rcases hp with hp | hp <;> (subst hp; decide)
        · exact hb p hp
      · rw [List.mem_singleton] at hp
        subst hp
        exact dbDriver_bare cfg.dbengine
    · by_cases hl : cfg.legacySsl
      · rw [if_pos hl, List.mem_singleton] at hp
        subst hp; decide
      · rw [if_neg hl] at hp
        cases hp

/-- C7, witness: version "latest" with one bare extension; all package
specs come out bare and the extension list is unchanged. -/
theorem c7_latest_keeps_all_no_pins_witness :
    ∃ pkgs,
      setup_venv [("1.9.0", [("modoboa-webmail", "<2.0")])] []
        ⟨"latest", "postgres", ["modoboa-webmail"], true⟩ =
        Except.ok (pkgs, ["modoboa-webmail"]) ∧
      ∀ p ∈ pkgs, isBareName p = true :=
  c7_latest_keeps_all_no_pins [("1.9.0", [("modoboa-webmail", "<2.0")])] []
    ⟨"latest", "postgres", ["modoboa-webmail"], true⟩
    (by rfl) (by decide)

/-! ### Claim C8 -/

/-- C8: when the target instance path exists and the force flag is set,
`_deploy_instance` never prompts: its steps are exactly the recursive
removal of the existing directory followed by the invocation of the
external scaffolding tool, for every operator answer and tool exit code. -/
theorem c8_force_removes_and_deploys_without_prompt
    (answer : String) (c : InstCfg) (deployCode : Nat) :
    deploy_instance true true answer c deployCode =
      ([DeployAction.rmtree, DeployAction.deploy (deploy_args c)],
        deployCode != 0) ∧
    DeployAction.prompt ∉ (deploy_instance true true answer c deployCode).1 := by
  refine ⟨rfl, ?_⟩
  intro h
  simp [deploy_instance] at h

/-! ### Claim C1 -/

/-- C1, counterexample: with an existing target, force unset and the
operator answering "n", the directory is indeed left untouched (no
`rmtree` step), yet `post_run` still performs the settings-injection step —
refuting the claim that the negative answer also skips `apply_settings`. -/
theorem c1_counterexample_settings_step_still_runs :
    (post_run [] [] ⟨"latest", "postgres", ["modoboa-webmail"], false⟩
      true false "n"
      ⟨"UTC", "mail.example.com", "postgres", "u", "p", "localhost",
        "modoboa", "au", "ap", "amavisdb", ["modoboa-webmail"], false,
        false⟩ 0).1.contains PostRunAction.applySettingsStep = true ∧
    (post_run [] [] ⟨"latest", "postgres", ["modoboa-webmail"], false⟩
      true false "n"
      ⟨"UTC", "mail.example.com", "postgres", "u", "p", "localhost",
        "modoboa", "au", "ap", "amavisdb", ["modoboa-webmail"], false,
        false⟩ 0).1.contains
      (PostRunAction.deployStep DeployAction.rmtree) = false := by
  constructor
  · rfl
  · rfl

/-- C1, amended: when the target exists, force is unset, the operator's
answer starts with "n" (case-insensitively) and the venv setup succeeded,
the existing directory is left untouched (no removal, no scaffolding-tool
invocation) but only the deployment step is aborted: `post_run` still
performs the settings-injection step. -/
theorem c1_negative_answer_skips_deploy_but_not_settings
    (cm : CompatMatrix) (avail : ConstraintMap) (vc : VenvConfig)
    (answer : String) (c : InstCfg) (deployCode : Nat)
    (pkgs kept : List String)
    (hs : setup_venv cm avail vc = Except.ok (pkgs, kept))
    (hn : answer_is_negative answer = true) :
    post_run cm avail vc true false answer c deployCode =
      ([PostRunAction.setupVenvStep pkgs,
        PostRunAction.deployStep DeployAction.prompt,
        PostRunAction.applySettingsStep], false) := by
  unfold post_run
  rw [hs]
  unfold deploy_instance
  simp [hn]

/-- C1, witness: the amended theorem at a concrete run with answer "No". -/
theorem c1_negative_answer_skips_deploy_but_not_settings_witness :
    post_run [] [] ⟨"latest", "postgres", [], false⟩ true false "No"
      ⟨"UTC", "mail.example.com", "postgres", "u", "p", "localhost",
        "modoboa", "au", "ap", "amavisdb", [], false, false⟩ 3 =
      ([PostRunAction.setupVenvStep ["rrdtool", "modoboa", "psycopg2"],
        PostRunAction.deployStep DeployAction.prompt,
        PostRunAction.applySettingsStep], false) :=
  c1_negative_answer_skips_deploy_but_not_settings [] []
    ⟨"latest", "postgres", [], false⟩ "No"
    ⟨"UTC", "mail.example.com", "postgres", "u", "p", "localhost",
      "modoboa", "au", "ap", "amavisdb", [], false, false⟩ 3
    ["rrdtool", "modoboa", "psycopg2"] [] (by rfl) (by decide)

/-! ### Claim C9 -/

/-- C9: the settings injection replaces the `_parameters` column with the
serialization of the freshly built document whatever the column held
before: the result is independent of the previous value, a second call
with different input leaves no trace of the first call's values, and the
stored secret key is exactly the key freshly generated for this call. -/
theorem c9_settings_injection_full_overwrite
    (k1 k2 rrd1 rrd2 pdf1 pdf2 : String) (fs1 fs2 : String → Bool)
    (old1 old2 : String) :
    apply_settings k2 rrd2 pdf2 fs2 old1 = apply_settings k2 rrd2 pdf2 fs2 old2 ∧
    apply_settings k2 rrd2 pdf2 fs2 (apply_settings k1 rrd1 pdf1 fs1 old1) =
      apply_settings k2 rrd2 pdf2 fs2 old1 ∧
    apply_settings k2 rrd2 pdf2 fs2 old1 =
      serialize_settings (build_settings k2 rrd2 pdf2 fs2) ∧
    (build_settings k2 rrd2 pdf2 fs2).secret_key = k2 :=
  ⟨rfl, rfl, rfl, rfl⟩

/-! ### Claim C10 -/

/-- C10: the amavis feature is active exactly when "modoboa-amavis" is
requested and the amavis service is enabled in configuration; whenever it
is inactive (given a duplicate-free extension list, as produced by a
configuration value) "modoboa-amavis" is absent from the resulting
extension list, the deployment arguments carry no secondary amavis URL,
and no amavis grant is performed.  In particular, enabling amavis in
configuration without requesting the extension activates nothing. -/
theorem c10_amavis_active_iff_requested_and_enabled
    (extensions : List String) (amavisCfgEnabled : Bool) (c : InstCfg)
    (amavisDbname dbuser : String)
    (hnd : extensions.Nodup) :
    (initAmavis extensions amavisCfgEnabled).1 =
      (extensions.contains "modoboa-amavis" && amavisCfgEnabled) ∧
    ((initAmavis extensions amavisCfgEnabled).1 = false →
      "modoboa-amavis" ∉ (initAmavis extensions amavisCfgEnabled).2) ∧
    (c.amavisEnabled = false →
      deploy_args c = deploy_args_base c ∧
      setup_database_amavis_grants c.amavisEnabled amavisDbname dbuser
        = []) := by
  refine ⟨?_, ?_, ?_⟩
  · unfold initAmavis
    by_cases hc : "modoboa-amavis" ∈ extensions <;>
      cases amavisCfgEnabled <;> simp [hc]
  · intro hfalse hmem
    unfold initAmavis at hfalse hmem
    by_cases hc : "modoboa-amavis" ∈ extensions
    · cases amavisCfgEnabled
      · simp [hc] at hmem
        exact hnd.not_mem_erase hmem
      · simp [hc] at hfalse
    · simp [hc] at hmem
  · intro hfalse
    constructor
    · unfold deploy_args
      rw [hfalse]
      simp
    · unfold setup_database_amavis_grants
      rw [hfalse]
      rfl

/-- C10, witness: the theorem applied with "modoboa-amavis" requested but
amavis disabled in configuration, and a deployment configuration whose
amavis flag is off. -/
theorem c10_amavis_active_iff_requested_and_enabled_witness :
    ((initAmavis ["modoboa-amavis", "modoboa-webmail"] false).1 =
      (["modoboa-amavis", "modoboa-webmail"].contains "modoboa-amavis"
        && false) ∧
    ((initAmavis ["modoboa-amavis", "modoboa-webmail"] false).1 = false →
      "modoboa-amavis" ∉
        (initAmavis ["modoboa-amavis", "modoboa-webmail"] false).2) ∧
    ((⟨"UTC", "mail.example.com", "postgres", "u", "p", "localhost",
        "modoboa", "au", "ap", "amavisdb", ["modoboa-webmail"], false,
        false⟩ : InstCfg).amavisEnabled = false →
      deploy_args
        ⟨"UTC", "mail.example.com", "postgres", "u", "p", "localhost",
          "modoboa", "au", "ap", "amavisdb", ["modoboa-webmail"], false,
          false⟩ =
      deploy_args_base
        ⟨"UTC", "mail.example.com", "postgres", "u", "p", "localhost",
          "modoboa", "au", "ap", "amavisdb", ["modoboa-webmail"], false,
          false⟩ ∧
      setup_database_amavis_grants
        (⟨"UTC", "mail.example.com", "postgres", "u", "p", "localhost",
          "modoboa", "au", "ap", "amavisdb", ["modoboa-webmail"], false,
          false⟩ : InstCfg).amavisEnabled "amavisdb" "u" = [])) :=
  c10_amavis_active_iff_requested_and_enabled
    ["modoboa-amavis", "modoboa-webmail"] false
    ⟨"UTC", "mail.example.com", "postgres", "u", "p", "localhost",
      "modoboa", "au", "ap", "amavisdb", ["modoboa-webmail"], false, false⟩
    "amavisdb" "u" (by decide)

end Modoboa
